import Mathlib

/-!
Shallow embedding of the transport/RPC core of the plotly.cpp repository:
the JSON-RPC layer (`src/detail/json_rpc.cpp`, here `JsonRpc.*`), the
websocket endpoint dispatch machinery (`src/detail/websockets_endpoint.cpp`),
the acceptor (`src/detail/websockets_server.cpp`) and the connector
(`src/detail/websockets_client.cpp`).

Conventions of the embedding:
- `nlohmann::json` values become the inductive `Json` (numbers restricted to
  integers, which is all the embedded code paths compare on).
- C++ code that may throw `std::exception` becomes `Except String α`, the
  `String` being the exception's `what()` text.
- Handler / callback `std::function` values become Lean functions returning
  `Except String _` (a registered handler may throw).
- The side effects of a code path (wire messages sent, handlers invoked,
  promises resolved) are returned explicitly as data.
-/

/-- Model of `nlohmann::json` values. Numbers are integers: every comparison
performed by the embedded code paths is against an integer or a string, so
floating point values never matter. Objects keep their fields as an
association list in insertion order. -/
inductive Json where
  | null : Json
  | bool : Bool → Json
  | num : Int → Json
  | str : String → Json
  | arr : List Json → Json
  | obj : List (String × Json) → Json

/-- `json.contains(key)`: true iff the value is an object holding the key. -/
def Json.contains (j : Json) (k : String) : Bool :=
  match j with
  | .obj fields => (List.lookup k fields).isSome
  | _ => false

/-- Field read used only at places the C++ guards with `contains` (so the
default `null` branch is never reached there): `request["key"]`. -/
def Json.get (j : Json) (k : String) : Json :=
  match j with
  | .obj fields => (List.lookup k fields).getD .null
  | _ => .null

/-- Unguarded non-const `operator[]` as used in the per-call response
callback: on an object it yields the field (inserting `null` when absent), on
`null` it converts the value to an object and yields `null`, on anything else
it throws `type_error`. -/
def Json.index (j : Json) (k : String) : Except String Json :=
  match j with
  | .obj fields => .ok ((List.lookup k fields).getD .null)
  | .null => .ok .null
  | _ => .error "type_error: cannot use operator[] with a string argument"

/-- `j.is_string()`. -/
def Json.isStr (j : Json) : Bool :=
  match j with
  | .str _ => true
  | _ => false

/-- The string payload of a JSON string (reached only under `is_string`). -/
def Json.asStr (j : Json) : String :=
  match j with
  | .str s => s
  | _ => ""

/-- `request["jsonrpc"] != "2.0"` negated: a json value equals the string
"2.0" iff it is that string. -/
def Json.isVersion20 (j : Json) : Bool :=
  match j with
  | .str s => s == "2.0"
  | _ => false

/-- `response["id"] == requestId` with an integer right-hand side: nlohmann
equality between a json value and an int holds iff the value is that number. -/
def Json.eqNum (j : Json) (k : Int) : Bool :=
  match j with
  | .num m => m == k
  | _ => false

/-- `JsonRpcErrorCode` from `src/detail/json_rpc.hpp`. -/
inductive JsonRpcErrorCode where
  | PARSE_ERROR
  | INVALID_REQUEST
  | METHOD_NOT_FOUND
  | INVALID_PARAMS
  | INTERNAL_ERROR
  | SERVER_ERROR

/-- The numeric values of `JsonRpcErrorCode`. -/
def JsonRpcErrorCode.toInt : JsonRpcErrorCode → Int
  | .PARSE_ERROR => -32700
  | .INVALID_REQUEST => -32600
  | .METHOD_NOT_FOUND => -32601
  | .INVALID_PARAMS => -32602
  | .INTERNAL_ERROR => -32603
  | .SERVER_ERROR => -32000

/-- `JsonRpcError` struct. -/
structure JsonRpcError where
  code : Int
  message : String
  data : Json

/-- `JsonRpcResponse` struct. -/
structure JsonRpcResponse where
  id : Option Json := none
  result : Option Json := none
  error : Option JsonRpcError := none
  jsonrpc : String := "2.0"

/-- `JsonRpcResponse::toJson`: fields are assigned in the order
`jsonrpc`, `id` (value or `null`), optional `result`, optional `error`. -/
def JsonRpcResponse.toJson (r : JsonRpcResponse) : Json :=
  .obj ([("jsonrpc", .str r.jsonrpc), ("id", r.id.getD .null)] ++
    (match r.result with
     | some v => [("result", v)]
     | none => []) ++
    (match r.error with
     | some e => [("error", .obj [("code", .num e.code),
                                  ("message", .str e.message),
                                  ("data", e.data)])]
     | none => []))

/-- The wire message built by `JsonRpc::sendErrorResponse`. -/
def JsonRpc.sendErrorResponse (requestId : Json) (errorCode : JsonRpcErrorCode)
    (message : String) : Json :=
  JsonRpcResponse.toJson
    { id := some requestId,
      error := some { code := errorCode.toInt, message := message, data := .null } }

/-- The wire message built by `JsonRpc::sendSuccessResponse`. -/
def JsonRpc.sendSuccessResponse (requestId : Json) (result : Json) : Json :=
  JsonRpcResponse.toJson { id := some requestId, result := some result }

/-- Reads `response.error.code` out of a wire message (for stating which
numeric error code a response carries). -/
def Json.respErrorCode (j : Json) : Option Int :=
  match (j.get "error").get "code" with
  | .num k => some k
  | _ => none

/-- Reads `response.id` out of a wire message. -/
def Json.respId (j : Json) : Json := j.get "id"

/-- The two handler tables of a `JsonRpc` object: `_handlers` (request
handlers, returning a result or throwing) and `_notifications`
(notification handlers, returning nothing or throwing). -/
structure RpcTables where
  handlers : String → Option (Json → Except String Json)
  notifications : String → Option (Json → Except String Unit)

/-- Observable effects of one `JsonRpc::handleIncomingMessage` run: the wire
messages sent (in order) and which request/notification handler was invoked,
with the params it received. -/
structure DispatchResult where
  sent : List Json
  handlerInvoked : Option (String × Json)
  notificationInvoked : Option (String × Json)

/-- The validation test of `handleIncomingMessage`:
`request.contains("jsonrpc") && request["jsonrpc"] == "2.0" &&
request.contains("method") && request["method"].is_string()`. -/
def JsonRpc.wellFormedRequest (request : Json) : Bool :=
  request.contains "jsonrpc" && (request.get "jsonrpc").isVersion20 &&
    request.contains "method" && (request.get "method").isStr

/-- `JsonRpc::handleIncomingMessage`. The input is the result of
`nlohmann::json::parse` (`.error e` = the parse threw with text `e`). The
outer try/catch converts any escaping exception — a parse failure, or a
notification handler's throw, which nothing inner catches — into a
`PARSE_ERROR` response with a `null` id; a request handler's throw is caught
by the inner try/catch and becomes an `INTERNAL_ERROR` response. -/
def JsonRpc.handleIncomingMessage (t : RpcTables) (parsed : Except String Json) :
    DispatchResult :=
  match parsed with
  | .error e =>
      { sent := [JsonRpc.sendErrorResponse .null .PARSE_ERROR ("Parse error: " ++ e)],
        handlerInvoked := none, notificationInvoked := none }
  | .ok request =>
      if !(JsonRpc.wellFormedRequest request) then
        if request.contains "id" then
          { sent := [JsonRpc.sendErrorResponse (request.get "id") .INVALID_REQUEST
                      "Invalid JSON-RPC request format"],
            handlerInvoked := none, notificationInvoked := none }
        else
          { sent := [], handlerInvoked := none, notificationInvoked := none }
      else
        let method := (request.get "method").asStr
        let params := if request.contains "params" then request.get "params" else .null
        if !(request.contains "id") then
          match t.notifications method with
          | some h =>
              match h params with
              | .ok _ =>
                  { sent := [], handlerInvoked := none,
                    notificationInvoked := some (method, params) }
              | .error e =>
                  { sent := [JsonRpc.sendErrorResponse .null .PARSE_ERROR
                              ("Parse error: " ++ e)],
                    handlerInvoked := none,
                    notificationInvoked := some (method, params) }
          | none =>
              { sent := [], handlerInvoked := none, notificationInvoked := none }
        else
          let requestId := request.get "id"
          match t.handlers method with
          | none =>
              { sent := [JsonRpc.sendErrorResponse requestId .METHOD_NOT_FOUND
                          ("Method not found: " ++ method)],
                handlerInvoked := none, notificationInvoked := none }
          | some h =>
              match h params with
              | .ok result =>
                  { sent := [JsonRpc.sendSuccessResponse requestId result],
                    handlerInvoked := some (method, params),
                    notificationInvoked := none }
              | .error e =>
                  { sent := [JsonRpc.sendErrorResponse requestId .INTERNAL_ERROR
                              ("Internal error: " ++ e)],
                    handlerInvoked := some (method, params),
                    notificationInvoked := none }

/-- State of one outstanding `JsonRpc::call`: the `std::promise` (set once a
value has been delivered) and whether the per-call transport callback named
by the generated UUID is still in the endpoint's registry. -/
structure CallState where
  promise : Option Json
  registered : Bool

/-- The state right after `call` returns: promise unset, callback registered. -/
def JsonRpc.initialCallState : CallState := { promise := none, registered := true }

/-- `std::promise::set_value`: stores the value if the promise is unset,
throws `std::future_error` (promise already satisfied) otherwise. -/
def Promise.setValue (p : Option Json) (v : Json) : Except String (Option Json) :=
  match p with
  | none => .ok (some v)
  | some _ => .error "std::future_error: Promise already satisfied"

/-- The per-call response callback registered by `JsonRpc::call` under the
generated UUID name: parse the message (may throw), and when
`response["id"] == requestId` resolve the promise with `response["result"]`
and unregister the callback. Any throw (parse failure, `operator[]` type
error, promise already satisfied) escapes the callback, leaving the state
unchanged. -/
def JsonRpc.responseCallback (requestId : Int) (st : CallState)
    (message : Except String Json) : Except String CallState :=
  match message with
  | .error e => .error e
  | .ok response =>
      match response.index "id" with
      | .error e => .error e
      | .ok idv =>
          if idv.eqNum requestId then
            match response.index "result" with
            | .error e => .error e
            | .ok res =>
                match Promise.setValue st.promise res with
                | .error e => .error e
                | .ok p => .ok { promise := p, registered := false }
          else
            .ok st

/-- The cancel lambda returned by `JsonRpc::call`:
`responsePromise->set_value(nlohmann::json())` (the empty json, i.e. `null`)
followed by unregistering the per-call callback. If `set_value` throws, the
exception propagates to the cancel caller and the callback stays registered. -/
def JsonRpc.cancelCall (st : CallState) : Except String CallState :=
  match Promise.setValue st.promise .null with
  | .error e => .error e
  | .ok p => .ok { promise := p, registered := false }

/-- How the callback executor treats the per-call callback for one inbound
message: if the callback name is still in the registry copy it is invoked
(an escaping exception is caught and logged), otherwise it is skipped.
Returns (new call state, whether the callback fired, logged error if any). -/
def dispatchToCall (requestId : Int) (st : CallState)
    (message : Except String Json) : CallState × Bool × Option String :=
  if st.registered then
    match JsonRpc.responseCallback requestId st message with
    | .ok st2 => (st2, true, none)
    | .error e => (st, true, some e)
  else
    (st, false, none)

/-- The reply wire shape produced by the peer for a call with id `k`. -/
def replyJson (k : Int) (result : Json) : Json :=
  .obj [("jsonrpc", .str "2.0"), ("id", .num k), ("result", result)]

/-- Sequential id allocation of `JsonRpc::call`: `static int requestId = 0;`
is incremented once per call, and the incremented value is the call's
correlation id. `callSeq c k` lists the ids handed to `k` successive calls
entered when the counter holds `c`. -/
def JsonRpc.callSeq (c : Int) : Nat → List Int
  | 0 => []
  | k + 1 => (c + 1) :: JsonRpc.callSeq (c + 1) k

/-- State of the unsynchronized `static int requestId` counter while two
threads execute `JsonRpc::call` concurrently. `requestId++` followed by the
capture `requestId = requestId` decomposes into three atomic accesses per
thread: load the counter into a local, store local+1 back, then load the
counter again as the captured correlation id. `pc0`/`pc1` are the threads'
positions in that three-step program, `l0`/`l1` their loaded locals and
`id0`/`id1` the captured ids. There is no lock in `call` around the counter
(the only mutex, `_registeredCallbacksMutex`, guards the callback-name set). -/
structure RaceState where
  counter : Int
  pc0 : Nat
  l0 : Int
  id0 : Option Int
  pc1 : Nat
  l1 : Int
  id1 : Option Int

/-- Both threads at the start of `call`, counter fresh at 0. -/
def RaceState.init : RaceState :=
  { counter := 0, pc0 := 0, l0 := 0, id0 := none, pc1 := 0, l1 := 0, id1 := none }

/-- One atomic step of thread 0. -/
def RaceState.step0 (s : RaceState) : RaceState :=
  match s.pc0 with
  | 0 => { s with l0 := s.counter, pc0 := 1 }
  | 1 => { s with counter := s.l0 + 1, pc0 := 2 }
  | 2 => { s with id0 := some s.counter, pc0 := 3 }
  | _ => s

/-- One atomic step of thread 1. -/
def RaceState.step1 (s : RaceState) : RaceState :=
  match s.pc1 with
  | 0 => { s with l1 := s.counter, pc1 := 1 }
  | 1 => { s with counter := s.l1 + 1, pc1 := 2 }
  | 2 => { s with id1 := some s.counter, pc1 := 3 }
  | _ => s

/-- Run an interleaving: `false` steps thread 0, `true` steps thread 1. -/
def RaceState.run (sched : List Bool) (s : RaceState) : RaceState :=
  sched.foldl (fun s t => if t then s.step1 else s.step0) s

/-- The per-peer loop body of `WebsocketServer::send`: a failed
`_server.send` to one peer sets `success = false` (after logging) and the
loop moves on to the next peer. The accumulator carries `success` and the
number of peers attempted so far. -/
def WebsocketServer.sendLoop : Bool × Nat → List Bool → Bool × Nat
  | acc, [] => acc
  | (success, n), ok :: rest =>
      WebsocketServer.sendLoop (if ok then success else false, n + 1) rest

/-- `WebsocketServer::send`, with the connections set abstracted to the list
of per-peer send outcomes (`true` = `_server.send` did not throw for that
peer). Returns the function's return value together with how many peers a
send was attempted to. Empty connections set: return `false` at once. -/
def WebsocketServer.send (peerResults : List Bool) : Bool × Nat :=
  if peerResults.isEmpty then (false, 0)
  else WebsocketServer.sendLoop (true, 0) peerResults

/-- The fallible steps of `WebsocketServer::serve` (`true` = the step
succeeded): `_server.listen` may throw, `_server.start_accept` may throw,
`get_local_endpoint` may report an error code. -/
structure ServeAttempt where
  listenOk : Bool
  startAcceptOk : Bool
  localEndpointOk : Bool

/-- Resources held by the server when `serve` returns. -/
structure ServerState where
  listening : Bool
  acceptPending : Bool
  portSet : Bool
  dispatchThreadStarted : Bool
  serviceThreadStarted : Bool

/-- `WebsocketServer::serve`: listen, start_accept, query the local endpoint,
publish the port, then start the callback-executor thread and the service
thread. An exception from a step is caught by the surrounding try/catch and
turns into `return false`; the error-code check after `get_local_endpoint`
returns `false` directly. No cleanup of earlier steps happens on failure. -/
def WebsocketServer.serve (a : ServeAttempt) : Bool × ServerState :=
  if !a.listenOk then
    (false, { listening := false, acceptPending := false, portSet := false,
              dispatchThreadStarted := false, serviceThreadStarted := false })
  else if !a.startAcceptOk then
    (false, { listening := true, acceptPending := false, portSet := false,
              dispatchThreadStarted := false, serviceThreadStarted := false })
  else if !a.localEndpointOk then
    (false, { listening := true, acceptPending := true, portSet := false,
              dispatchThreadStarted := false, serviceThreadStarted := false })
  else
    (true, { listening := true, acceptPending := true, portSet := true,
             dispatchThreadStarted := true, serviceThreadStarted := true })

/-- The fallible steps of `WebsocketClient::connect`: `get_connection` may
report an error code, `_client.connect` may throw. -/
structure ConnectAttempt where
  getConnectionOk : Bool
  connectOk : Bool

/-- Resources held by the client when `connect` returns. -/
structure ClientState where
  connectPending : Bool
  dispatchThreadStarted : Bool
  serviceThreadStarted : Bool

/-- `WebsocketClient::connect`: create the connection object, initiate the
asynchronous connect, then start the callback-executor thread and the
service thread. Failures return `false` with nothing initiated or started. -/
def WebsocketClient.connect (a : ConnectAttempt) : Bool × ClientState :=
  if !a.getConnectionOk then
    (false, { connectPending := false, dispatchThreadStarted := false,
              serviceThreadStarted := false })
  else if !a.connectOk then
    (false, { connectPending := false, dispatchThreadStarted := false,
              serviceThreadStarted := false })
  else
    (true, { connectPending := true, dispatchThreadStarted := true,
             serviceThreadStarted := true })

/-- The inner callback loop of `WebsocketEndpointImpl::callbackExecutorLoop`
for one popped message, starting at the `i`-th `running.load()` read:
before each callback the running flag is re-read (`break` when false), then
the callback is invoked with the message inside a try/catch that logs an
escaping exception's text and continues. Returns the (name, message)
invocations made, in registry-copy order, and the logged exception texts. -/
def execCallbacksFrom (running : Nat → Bool) (message : String) (i : Nat) :
    List (String × (String → Except String Unit)) →
    List (String × String) × List String
  | [] => ([], [])
  | (name, cb) :: rest =>
      if running i then
        let tail := execCallbacksFrom running message (i + 1) rest
        match cb message with
        | .ok _ => ((name, message) :: tail.1, tail.2)
        | .error e => ((name, message) :: tail.1, e :: tail.2)
      else
        ([], [])

/-- One dispatch cycle of `callbackExecutorLoop` after a message was popped
from the inbound queue and the registry was copied under its lock: the
whole loop over the copy is guarded by one `running.load()` read (index 0),
and each callback by a further read. `running` gives the value returned by
the `i`-th read. The function is total: a callback's exception is caught and
logged, so the cycle — and the dispatch loop — always runs to completion. -/
def callbackExecutorCycle (running : Nat → Bool) (message : String)
    (cbs : List (String × (String → Except String Unit))) :
    List (String × String) × List String :=
  if running 0 then execCallbacksFrom running message 1 cbs else ([], [])

/-- The loop of `WebsocketServer::send` equals: success iff every per-peer
send succeeded, and every peer is attempted (a failure never aborts the
loop). -/
theorem WebsocketServer.sendLoop_eq (l : List Bool) (s : Bool) (n : Nat) :
    WebsocketServer.sendLoop (s, n) l = (s && l.all (fun b => b), n + l.length) := by
  induction l generalizing s n with
  | nil => simp [WebsocketServer.sendLoop]
  | cons ok rest ih =>
      cases ok <;> simp [WebsocketServer.sendLoop, ih, Nat.add_assoc, Nat.add_comm 1]

/-- Every id handed out by a run of sequential calls exceeds the starting
counter value. -/
theorem JsonRpc.callSeq_gt (K : Nat) :
    ∀ (c x : Int), x ∈ JsonRpc.callSeq c K → c < x := by
  induction K with
  | zero => intro c x hx; simp [JsonRpc.callSeq] at hx
  | succ k ih =>
      intro c x hx
      simp only [JsonRpc.callSeq, List.mem_cons] at hx
      rcases hx with h | h
      · omega
      · have := ih (c + 1) x h
        omega

/-- Ids handed out by sequential calls are strictly increasing. -/
theorem JsonRpc.callSeq_pairwise (K : Nat) :
    ∀ c : Int, List.Pairwise (fun a b => a < b) (JsonRpc.callSeq c K) := by
  induction K with
  | zero => intro c; simp [JsonRpc.callSeq]
  | succ k ih =>
      intro c
      refine List.Pairwise.cons ?_ (ih (c + 1))
      intro x hx
      have := JsonRpc.callSeq_gt k (c + 1) x hx
      omega

/-- With the running flag observed `true` at every read, the callback loop
invokes every callback of the registry copy with the popped message, in
order, and logs the text of every exception a callback raises. -/
theorem execCallbacksFrom_all (message : String)
    (cbs : List (String × (String → Except String Unit)))
    (running : Nat → Bool) (hrun : ∀ n, running n = true) :
    ∀ i : Nat,
      (execCallbacksFrom running message i cbs).1 =
        cbs.map (fun p => (p.1, message)) ∧
      (∀ name cb e, (name, cb) ∈ cbs → cb message = .error e →
        e ∈ (execCallbacksFrom running message i cbs).2) := by
  induction cbs with
  | nil => intro i; simp [execCallbacksFrom]
  | cons p rest ih =>
      intro i
      obtain ⟨name, cb⟩ := p
      have h1 := (ih (i + 1)).1
      have h2 := (ih (i + 1)).2
      constructor
      · simp only [execCallbacksFrom, hrun i, if_true]
        cases hcb : cb message <;> simp [hcb, h1]
      · intro nm f e hmem herr
        simp only [execCallbacksFrom, hrun i, if_true]
        rcases List.mem_cons.mp hmem with heq | htail
        · have hf : f = cb := congrArg Prod.snd heq
          rw [hf] at herr
          simp [herr]
        · have hmemtail := h2 nm f e htail herr
          cases hcb : cb message <;> simp [hcb, hmemtail]

/-- C1 counterexample: the claim "send returns true whenever the connected
peer set is non-empty, even when sending to some (or all) of those peers
fails" is false: with one connected peer whose send throws, the loop sets
`success = false` and `send` returns `false`. -/
theorem C1_counterexample :
    ¬ (∀ peerResults : List Bool, peerResults ≠ [] →
        (WebsocketServer.send peerResults).1 = true) := by
  intro hclaim
  exact absurd (hclaim [false] (by decide)) (by decide)

/-- C1 (amended): `WebsocketServer::send` returns `false` when the connected
peer set is empty; otherwise it attempts a send to every connected peer — a
per-peer failure is logged and never aborts delivery to the remaining peers —
and returns `true` exactly when every per-peer send succeeded (any per-peer
failure makes the return value `false`). -/
theorem C1_send_best_effort (peerResults : List Bool) :
    WebsocketServer.send peerResults =
      (!peerResults.isEmpty && peerResults.all (fun b => b), peerResults.length) := by
  cases peerResults with
  | nil => simp [WebsocketServer.send]
  | cons ok rest =>
      simp [WebsocketServer.send, WebsocketServer.sendLoop_eq]

/-- C2 counterexample: the correlation counter `static int requestId` is
incremented in `JsonRpc::call` with no lock held, so two concurrent calls
can interleave their load/store/capture accesses such that both calls
capture the same correlation id 1 — the ids of K concurrent calls are not
pairwise distinct, refuting the claim that correlation state is guarded by
a dedicated lock making concurrent ids fresh. -/
theorem C2_counterexample :
    (RaceState.run [false, true, false, true, false, true] RaceState.init).id0 = some 1 ∧
    (RaceState.run [false, true, false, true, false, true] RaceState.init).id1 = some 1 ∧
    (RaceState.run [false, true, false, true, false, true] RaceState.init).id0 =
      (RaceState.run [false, true, false, true, false, true] RaceState.init).id1 := by
  exact ⟨rfl, rfl, rfl⟩

/-- C2 (amended): correlation ids are allocated by incrementing a
process-local static counter, so calls issued sequentially receive strictly
increasing (hence pairwise distinct) ids, and a call's response callback
resolves only on a reply carrying its own id (a reply with any other id
leaves the call's state untouched); but the counter is not guarded by any
lock — the only mutex in `JsonRpc` guards the registered-callback set — so
concurrently issued calls may race and obtain equal ids. -/
theorem C2_sequential_ids (c : Int) (K : Nat) :
    List.Pairwise (fun a b => a < b) (JsonRpc.callSeq c K) ∧
    (∀ (i j : Int) (st : CallState) (r : Json), i ≠ j →
      JsonRpc.responseCallback i st (.ok (replyJson j r)) = .ok st) := by
  refine ⟨JsonRpc.callSeq_pairwise K c, ?_⟩
  intro i j st r hij
  have hbe : (j == i) = false := by
    simp only [beq_eq_false_iff_ne, ne_eq]
    exact fun h => hij h.symm
  simp [JsonRpc.responseCallback, replyJson, Json.index, Json.eqNum,
    List.lookup, hbe]

/-- C2 witness: three sequential calls from a fresh counter get strictly
increasing ids, and the callback of the call with id 1 ignores a reply
carrying id 2. -/
theorem C2_sequential_ids_witness :
    List.Pairwise (fun a b => a < b) (JsonRpc.callSeq 0 3) ∧
    JsonRpc.responseCallback 1 JsonRpc.initialCallState (.ok (replyJson 2 .null)) =
      .ok JsonRpc.initialCallState :=
  ⟨(C2_sequential_ids 0 3).1,
   (C2_sequential_ids 0 3).2 1 2 JsonRpc.initialCallState .null (by decide)⟩

/-- C3: invoking the cancel function of an outstanding call (promise unset,
per-call callback still registered) resolves the async result to the
empty/null json and unregisters the per-call transport callback; any message
— in particular a matching reply — arriving afterwards finds the callback
name gone from the registry, so dispatch skips it silently: no callback
fires, no error is raised, the state never changes again. -/
theorem C3_cancel_then_drop (st : CallState)
    (hp : st.promise = none) (_hr : st.registered = true) :
    JsonRpc.cancelCall st = .ok { promise := some Json.null, registered := false } ∧
    (∀ (requestId : Int) (message : Except String Json),
      dispatchToCall requestId { promise := some Json.null, registered := false }
          message =
        ({ promise := some Json.null, registered := false }, false, none)) := by
  constructor
  · simp [JsonRpc.cancelCall, hp, Promise.setValue]
  · intro requestId message
    simp [dispatchToCall]

/-- C3 witness: cancelling the state a fresh `call` returns resolves it to
null and unregisters the callback, and a matching reply dispatched after the
cancellation is dropped without firing the callback. -/
theorem C3_cancel_then_drop_witness :
    JsonRpc.cancelCall JsonRpc.initialCallState =
      .ok { promise := some Json.null, registered := false } ∧
    dispatchToCall 1 { promise := some Json.null, registered := false }
        (.ok (replyJson 1 (.num 42))) =
      ({ promise := some Json.null, registered := false }, false, none) :=
  ⟨(C3_cancel_then_drop JsonRpc.initialCallState rfl rfl).1,
   (C3_cancel_then_drop JsonRpc.initialCallState rfl rfl).2 1 (.ok (replyJson 1 (.num 42)))⟩

/-- C10: once a call's async result has been resolved — by a matching reply
or by a previous cancellation — its promise is satisfied, so invoking the
returned cancel function calls `set_value` on a satisfied promise, which
throws `std::future_error` to the cancel caller rather than being a no-op. -/
theorem C10_cancel_after_resolve (st : CallState) (v : Json)
    (hp : st.promise = some v) :
    JsonRpc.cancelCall st = .error "std::future_error: Promise already satisfied" := by
  simp [JsonRpc.cancelCall, hp, Promise.setValue]

/-- C10 witness: cancelling a call already resolved with the value 42
raises the future error. -/
theorem C10_cancel_after_resolve_witness :
    JsonRpc.cancelCall { promise := some (.num 42), registered := false } =
      .error "std::future_error: Promise already satisfied" :=
  C10_cancel_after_resolve { promise := some (.num 42), registered := false }
    (.num 42) rfl

/-- C4: a well-formed inbound request (jsonrpc "2.0", string method, id
present) whose method has no entry in the handler table makes
`handleIncomingMessage` send exactly one error response — carrying the
request's id and code METHOD_NOT_FOUND = -32601 — and invoke no request or
notification handler. -/
theorem C4_method_not_found (t : RpcTables) (request : Json)
    (hwf : JsonRpc.wellFormedRequest request = true)
    (hid : request.contains "id" = true)
    (hh : t.handlers ((request.get "method").asStr) = none) :
    JsonRpc.handleIncomingMessage t (.ok request) =
      { sent := [JsonRpc.sendErrorResponse (request.get "id") .METHOD_NOT_FOUND
                  ("Method not found: " ++ (request.get "method").asStr)],
        handlerInvoked := none, notificationInvoked := none } ∧
    (JsonRpc.sendErrorResponse (request.get "id") .METHOD_NOT_FOUND
        ("Method not found: " ++ (request.get "method").asStr)).respErrorCode =
      some (-32601) ∧
    (JsonRpc.sendErrorResponse (request.get "id") .METHOD_NOT_FOUND
        ("Method not found: " ++ (request.get "method").asStr)).respId =
      request.get "id" := by
  refine ⟨?_, rfl, rfl⟩
  simp [JsonRpc.handleIncomingMessage, hwf, hid, hh]

/-- C4 witness: calling the unregistered method "nope" with id 7 on empty
tables yields exactly the METHOD_NOT_FOUND error response for id 7. -/
theorem C4_method_not_found_witness :
    JsonRpc.handleIncomingMessage
        { handlers := fun _ => none, notifications := fun _ => none }
        (.ok (.obj [("jsonrpc", .str "2.0"), ("method", .str "nope"),
                    ("id", .num 7)])) =
      { sent := [JsonRpc.sendErrorResponse (.num 7) .METHOD_NOT_FOUND
                  "Method not found: nope"],
        handlerInvoked := none, notificationInvoked := none } :=
  (C4_method_not_found
    { handlers := fun _ => none, notifications := fun _ => none }
    (.obj [("jsonrpc", .str "2.0"), ("method", .str "nope"), ("id", .num 7)])
    rfl rfl rfl).1

/-- C5: when the registered handler of a well-formed inbound request throws,
the exception is caught at the dispatch boundary (the inner try/catch of
`handleIncomingMessage`, whose return type shows nothing propagates) and
converted into exactly one error response with code INTERNAL_ERROR = -32603
addressed to the request's id, whose message text extends the exception's
text. -/
theorem C5_handler_exception (t : RpcTables) (request : Json)
    (handler : Json → Except String Json) (e : String)
    (hwf : JsonRpc.wellFormedRequest request = true)
    (hid : request.contains "id" = true)
    (hh : t.handlers ((request.get "method").asStr) = some handler)
    (he : handler (if request.contains "params" then request.get "params"
                   else .null) = .error e) :
    JsonRpc.handleIncomingMessage t (.ok request) =
      { sent := [JsonRpc.sendErrorResponse (request.get "id") .INTERNAL_ERROR
                  ("Internal error: " ++ e)],
        handlerInvoked := some ((request.get "method").asStr,
          if request.contains "params" then request.get "params" else .null),
        notificationInvoked := none } ∧
    (JsonRpc.sendErrorResponse (request.get "id") .INTERNAL_ERROR
        ("Internal error: " ++ e)).respErrorCode = some (-32603) ∧
    (∃ prelude, "Internal error: " ++ e = prelude ++ e) := by
  refine ⟨?_, rfl, ⟨"Internal error: ", rfl⟩⟩
  simp [JsonRpc.handleIncomingMessage, hwf, hid, hh, he]

/-- C5 witness: a handler for "boomer" that throws "kaput" on a request with
id 3 produces the INTERNAL_ERROR response "Internal error: kaput" for id 3. -/
theorem C5_handler_exception_witness :
    JsonRpc.handleIncomingMessage
        { handlers := fun m => if m == "boomer" then
            some (fun _ => .error "kaput") else none,
          notifications := fun _ => none }
        (.ok (.obj [("jsonrpc", .str "2.0"), ("method", .str "boomer"),
                    ("id", .num 3)])) =
      { sent := [JsonRpc.sendErrorResponse (.num 3) .INTERNAL_ERROR
                  "Internal error: kaput"],
        handlerInvoked := some ("boomer", .null),
        notificationInvoked := none } :=
  (C5_handler_exception
    { handlers := fun m => if m == "boomer" then
        some (fun _ => .error "kaput") else none,
      notifications := fun _ => none }
    (.obj [("jsonrpc", .str "2.0"), ("method", .str "boomer"), ("id", .num 3)])
    (fun _ => .error "kaput") "kaput" rfl rfl rfl rfl).1

/-- C6 counterexample: the claim "for a well-formed inbound message lacking
an id, in no case is any response sent over the wire" fails when the
registered notification handler throws: the exception escapes to the outer
catch of `handleIncomingMessage`, which sends a PARSE_ERROR response with a
null id. -/
theorem C6_counterexample :
    ¬ (∀ (t : RpcTables) (request : Json),
        JsonRpc.wellFormedRequest request = true →
        request.contains "id" = false →
        (JsonRpc.handleIncomingMessage t (.ok request)).sent = []) := by
  intro hclaim
  have h := hclaim
    { handlers := fun _ => none,
      notifications := fun m => if m == "evt" then
        some (fun _ => .error "boom") else none }
    (.obj [("jsonrpc", .str "2.0"), ("method", .str "evt")]) rfl rfl
  simp [JsonRpc.handleIncomingMessage, JsonRpc.wellFormedRequest,
    Json.contains, Json.get, Json.isVersion20, Json.isStr, Json.asStr,
    List.lookup] at h

/-- C6 (amended): a well-formed inbound message without an "id" field is a
notification: the notification table is consulted; with no entry the message
is silently ignored (no handler runs, nothing is sent); with an entry the
handler is invoked with the params, and no response is sent provided the
handler returns normally — but if the handler throws, the exception reaches
the outer parse-error catch and one PARSE_ERROR response with a null id is
sent over the wire. -/
theorem C6_no_id_is_notification (t : RpcTables) (request : Json)
    (hwf : JsonRpc.wellFormedRequest request = true)
    (hid : request.contains "id" = false) :
    (t.notifications ((request.get "method").asStr) = none →
      JsonRpc.handleIncomingMessage t (.ok request) =
        { sent := [], handlerInvoked := none, notificationInvoked := none }) ∧
    (∀ nh, t.notifications ((request.get "method").asStr) = some nh →
      (nh (if request.contains "params" then request.get "params"
           else .null) = .ok () →
        JsonRpc.handleIncomingMessage t (.ok request) =
          { sent := [], handlerInvoked := none,
            notificationInvoked := some ((request.get "method").asStr,
              if request.contains "params" then request.get "params"
              else .null) }) ∧
      (∀ e, nh (if request.contains "params" then request.get "params"
                else .null) = .error e →
        JsonRpc.handleIncomingMessage t (.ok request) =
          { sent := [JsonRpc.sendErrorResponse .null .PARSE_ERROR
                      ("Parse error: " ++ e)],
            handlerInvoked := none,
            notificationInvoked := some ((request.get "method").asStr,
              if request.contains "params" then request.get "params"
              else .null) } ∧
        (JsonRpc.sendErrorResponse .null .PARSE_ERROR
            ("Parse error: " ++ e)).respId = .null)) := by
  refine ⟨?_, ?_⟩
  · intro hn
    simp [JsonRpc.handleIncomingMessage, hwf, hid, hn]
  · intro nh hn
    refine ⟨?_, ?_⟩
    · intro hok
      simp [JsonRpc.handleIncomingMessage, hwf, hid, hn, hok]
    · intro e herr
      refine ⟨?_, rfl⟩
      simp [JsonRpc.handleIncomingMessage, hwf, hid, hn, herr]

/-- C6 witness: a notification "evt" with no registered handler is silently
ignored — nothing sent, nothing invoked. -/
theorem C6_no_id_is_notification_witness :
    JsonRpc.handleIncomingMessage
        { handlers := fun _ => none, notifications := fun _ => none }
        (.ok (.obj [("jsonrpc", .str "2.0"), ("method", .str "evt")])) =
      { sent := [], handlerInvoked := none, notificationInvoked := none } :=
  (C6_no_id_is_notification
    { handlers := fun _ => none, notifications := fun _ => none }
    (.obj [("jsonrpc", .str "2.0"), ("method", .str "evt")]) rfl rfl).1 rfl

/-- C7: in one dispatch cycle of `callbackExecutorLoop` — provided the
running flag is observed true at every load, i.e. no concurrent `stop` —
every callback in the point-in-time copy of the registry is invoked with the
popped message, in registry-copy order; a callback whose invocation throws
is caught and its text logged, it does not prevent the remaining callbacks
from being invoked with the same message, and the cycle (a total function)
always completes, so the dispatch loop is never terminated by a callback. -/
theorem C7_dispatch_cycle (running : Nat → Bool) (message : String)
    (cbs : List (String × (String → Except String Unit)))
    (hrun : ∀ n, running n = true) :
    (callbackExecutorCycle running message cbs).1 =
      cbs.map (fun p => (p.1, message)) ∧
    (∀ name cb e, (name, cb) ∈ cbs → cb message = .error e →
      e ∈ (callbackExecutorCycle running message cbs).2) := by
  have h := execCallbacksFrom_all message cbs running hrun 1
  constructor
  · simp only [callbackExecutorCycle, hrun 0, if_true]
    exact h.1
  · intro name cb e hmem herr
    simp only [callbackExecutorCycle, hrun 0, if_true]
    exact h.2 name cb e hmem herr

/-- C7 witness: with the running flag constantly true, a snapshot of two
callbacks — the second throwing "boom" — has both invoked with the message
"msg" in order, and the thrown text is logged. -/
theorem C7_dispatch_cycle_witness :
    (callbackExecutorCycle (fun _ => true) "msg"
        [("a", fun _ => .ok ()), ("b", fun _ => .error "boom")]).1 =
      [("a", "msg"), ("b", "msg")] ∧
    "boom" ∈ (callbackExecutorCycle (fun _ => true) "msg"
        [("a", fun _ => .ok ()), ("b", fun _ => .error "boom")]).2 := by
  have h := C7_dispatch_cycle (fun _ => true) "msg"
    [("a", fun _ => .ok ()), ("b", fun _ => .error "boom")] (fun _ => rfl)
  exact ⟨h.1, h.2 "b" (fun _ => .error "boom") "boom"
    (List.mem_cons_of_mem _ (List.mem_cons_self _ _)) rfl⟩

/-- C8 counterexample: the claim "a failing serve/connect leaves no live
listening/connecting resource" fails for the acceptor: when `listen` and
`start_accept` succeed but querying the local endpoint reports an error
code, `serve` returns false with no cleanup, leaving the listening socket
open and accepting. (No thread is started in that path, so only the
resource half of the claim fails.) -/
theorem C8_counterexample :
    (WebsocketServer.serve
        { listenOk := true, startAcceptOk := true, localEndpointOk := false }).1 =
      false ∧
    (WebsocketServer.serve
        { listenOk := true, startAcceptOk := true, localEndpointOk := false
        }).2.listening = true ∧
    (WebsocketServer.serve
        { listenOk := true, startAcceptOk := true, localEndpointOk := false
        }).2.acceptPending = true :=
  ⟨rfl, rfl, rfl⟩

/-- C8 (amended): `serve`/`connect` are total (every failure is caught and
reported as `false`, no exception escapes), and the I/O-service thread and
the callback-dispatch thread are started exactly when the call succeeds —
never on a failing call. The connector also holds no live connecting
resource after a failing call; the acceptor, however, keeps the listening
socket exactly when `listen` succeeded, so a failure in a later step leaves
it open. -/
theorem C8_no_threads_on_failure (a : ServeAttempt) (c : ConnectAttempt) :
    (WebsocketServer.serve a).2.dispatchThreadStarted = (WebsocketServer.serve a).1 ∧
    (WebsocketServer.serve a).2.serviceThreadStarted = (WebsocketServer.serve a).1 ∧
    (WebsocketServer.serve a).2.listening = a.listenOk ∧
    (WebsocketClient.connect c).2.dispatchThreadStarted = (WebsocketClient.connect c).1 ∧
    (WebsocketClient.connect c).2.serviceThreadStarted = (WebsocketClient.connect c).1 ∧
    (WebsocketClient.connect c).2.connectPending = (WebsocketClient.connect c).1 := by
  obtain ⟨l, sa, le⟩ := a
  obtain ⟨g, co⟩ := c
  cases l <;> cases sa <;> cases le <;> cases g <;> cases co <;>
    simp [WebsocketServer.serve, WebsocketClient.connect]

/-- C9: the JSON-RPC inbound handler is registered as an ordinary transport
callback, so it too receives every inbound message: a message carrying an
"id" but no "method" — the shape of every reply to this layer's own
outbound calls — fails request validation and, having an id, draws an
INVALID_REQUEST = -32600 error response addressed to that id; dispatched to
the matching pending call's callback, the same reply also resolves that
call's promise with the reply's result and unregisters the callback. -/
theorem C9_reply_draws_invalid_request (t : RpcTables) (request : Json)
    (n : Int) (r : Json)
    (hm : request.contains "method" = false)
    (hid : request.contains "id" = true) :
    JsonRpc.handleIncomingMessage t (.ok request) =
      { sent := [JsonRpc.sendErrorResponse (request.get "id") .INVALID_REQUEST
                  "Invalid JSON-RPC request format"],
        handlerInvoked := none, notificationInvoked := none } ∧
    (JsonRpc.sendErrorResponse (request.get "id") .INVALID_REQUEST
        "Invalid JSON-RPC request format").respErrorCode = some (-32600) ∧
    (replyJson n r).contains "method" = false ∧
    (replyJson n r).contains "id" = true ∧
    dispatchToCall n JsonRpc.initialCallState (.ok (replyJson n r)) =
      ({ promise := some r, registered := false }, true, none) := by
  have hwf : JsonRpc.wellFormedRequest request = false := by
    simp [JsonRpc.wellFormedRequest, hm]
  refine ⟨?_, rfl, rfl, rfl, ?_⟩
  · simp [JsonRpc.handleIncomingMessage, hwf, hid]
  · simp [dispatchToCall, JsonRpc.initialCallState, JsonRpc.responseCallback,
      replyJson, Json.index, Json.eqNum, List.lookup, Promise.setValue]

/-- C9 witness: the reply `{"jsonrpc":"2.0","id":5,"result":9}` draws the
INVALID_REQUEST response for id 5 from the inbound handler while also
resolving the pending call with id 5 to 9. -/
theorem C9_reply_draws_invalid_request_witness :
    JsonRpc.handleIncomingMessage
        { handlers := fun _ => none, notifications := fun _ => none }
        (.ok (replyJson 5 (.num 9))) =
      { sent := [JsonRpc.sendErrorResponse (.num 5) .INVALID_REQUEST
                  "Invalid JSON-RPC request format"],
        handlerInvoked := none, notificationInvoked := none } ∧
    dispatchToCall 5 JsonRpc.initialCallState (.ok (replyJson 5 (.num 9))) =
      ({ promise := some (.num 9), registered := false }, true, none) :=
  ⟨(C9_reply_draws_invalid_request
      { handlers := fun _ => none, notifications := fun _ => none }
      (replyJson 5 (.num 9)) 5 (.num 9) rfl rfl).1,
   (C9_reply_draws_invalid_request
      { handlers := fun _ => none, notifications := fun _ => none }
      (replyJson 5 (.num 9)) 5 (.num 9) rfl rfl).2.2.2.2⟩
